import Mathlib

/-!
Shallow embedding of the map widget in src/app/map/map.component.ts.

The component polls an aircraft endpoint, filters and reshapes the records into
GeoJSON point features, and republishes them to the map shell. Numbers from
JavaScript are modelled as rationals; a JavaScript value that may be undefined
is modelled as an Option; a thrown exception is an Except error.
-/

/-- An aircraft record from the polled endpoint (one entry of response.ac).
Fields used by fetchPlanes: lat, lon, track (may be undefined), flight (may
be undefined). -/
structure Plane where
  lat : Rat
  lon : Rat
  track : Option Rat
  flight : Option String
  deriving DecidableEq

/-- JavaScript x || 0 on a numeric that may be undefined: 0 when the value is
absent, and the value itself otherwise, except that a 0 value (falsy) again
yields 0. -/
def jsOrZero (x : Option Rat) : Rat :=
  match x with
  | none => 0
  | some v => if v = 0 then 0 else v

/-- A GeoJSON geometry as built in fetchPlanes: a type tag and a coordinate
list. -/
structure Geometry where
  type : String
  coordinates : List Rat
  deriving DecidableEq

/-- The properties object attached to each published plane feature: exactly a
heading and a flight identifier. -/
structure FeatureProperties where
  heading : Rat
  flight : Option String
  deriving DecidableEq

/-- A GeoJSON feature as built in fetchPlanes. -/
structure Feature where
  type : String
  geometry : Geometry
  properties : FeatureProperties
  deriving DecidableEq

/-- The filter predicate of fetchPlanes:
plane.lat !== 0 && plane.lon !== 0 && plane.flight !== undefined. -/
def passesFilter (p : Plane) : Bool :=
  p.lat != 0 && p.lon != 0 && p.flight.isSome

/-- The map step of fetchPlanes: one aircraft record to a GeoJSON point
feature with coordinates [lon, lat] and properties heading (track || 0) and
flight. -/
def toFeature (p : Plane) : Feature :=
  { type := "Feature"
    geometry := { type := "Point", coordinates := [p.lon, p.lat] }
    properties := { heading := jsOrZero p.track, flight := p.flight } }

/-- The features of the FeatureCollection published by a successful cycle:
response.ac filtered then mapped. -/
def buildFeatures (ac : List Plane) : List Feature :=
  (ac.filter passesFilter).map toFeature

/-- The body of the HTTP response: the ac field may be absent (malformed
response). -/
structure Response where
  ac : Option (List Plane)
  deriving DecidableEq

/-- Outcome of the network call issued by one cycle: either a response object
or a network error (the awaited promise rejects). -/
inductive FetchResult where
  | success (resp : Response)
  | networkError
  deriving DecidableEq

/-- The exceptions that can arise inside the try block of fetchPlanes: the
rejected network call, or the TypeError from reading .filter off an undefined
response.ac. -/
inductive JsError where
  | networkError
  | acUndefined
  deriving DecidableEq

/-- The state of the map shell seen by the refresher: the planes data source
(none when the map is undefined, not yet loaded, or removed) and the console
error log. -/
structure MapState where
  planesSource : Option (List Feature)
  errorLog : List JsError
  deriving DecidableEq

/-- The try block of fetchPlanes: await the fetch, read response.ac, filter
and map it, and replace the planes source if getSource finds it. An error
escapes the block as an Except error. -/
def fetchPlanesBody (r : FetchResult) (st : MapState) : Except JsError MapState :=
  match r with
  | .networkError => .error .networkError
  | .success resp =>
    match resp.ac with
    | none => .error .acUndefined
    | some ac =>
      let geojson := buildFeatures ac
      match st.planesSource with
      | some _ => .ok { st with planesSource := some geojson }
      | none => .ok st

/-- fetchPlanes: the try block with its catch, which logs the error to the
console and returns normally. Total: no error escapes the cycle. -/
def fetchPlanes (r : FetchResult) (st : MapState) : MapState :=
  match fetchPlanesBody r st with
  | .ok st2 => st2
  | .error e => { st with errorLog := st.errorLog ++ [e] }

/-- A cycle fails when the network call rejects or the response has no ac
collection. -/
def failedCycle (r : FetchResult) : Bool :=
  match r with
  | .networkError => true
  | .success resp => resp.ac.isNone

/-- Where control of startFetchingPlanes sits between suspension points:
at the while condition, awaiting fetchPlanes (network call in flight with its
eventual result), or awaiting delay(1000). -/
inductive Phase where
  | atCheck
  | inFlight (r : FetchResult)
  | inDelay
  deriving DecidableEq

/-- The refresher: the isFetching flag, the control point of the loop, the map
shell state, the number of completed fetch cycles, and the total milliseconds
spent suspended in delay. -/
structure RefresherState where
  isFetching : Bool
  phase : Phase
  map : MapState
  cycles : Nat
  delayedMs : Nat
  deriving DecidableEq

/-- An event: the current suspension resumes (advance, carrying the result the
network would hand a newly issued fetch), or ngOnDestroy runs (destroy). -/
inductive LoopAction where
  | advance (r : FetchResult)
  | destroy
  deriving DecidableEq

/-- ngOnDestroy: remove the map (the planes source is gone afterwards) and
clear isFetching. It does not touch the control point of the loop: an in-flight
cycle is not aborted. -/
def ngOnDestroy (s : RefresherState) : RefresherState :=
  { s with isFetching := false,
           map := { s.map with planesSource := none } }

/-- One small step of the refresher. At the while condition a set flag issues
a fetch and a cleared flag leaves the loop (the state no longer changes); a
completing fetch applies fetchPlanes whether or not the flag is still set; a
completing delay adds its fixed 1000 ms and returns to the condition. -/
def step (s : RefresherState) (a : LoopAction) : RefresherState :=
  match a with
  | .destroy => ngOnDestroy s
  | .advance r =>
    match s.phase with
    | .atCheck =>
      if s.isFetching then { s with phase := .inFlight r } else s
    | .inFlight r0 =>
      { s with phase := .inDelay, map := fetchPlanes r0 s.map,
               cycles := s.cycles + 1 }
    | .inDelay =>
      { s with phase := .atCheck, delayedMs := s.delayedMs + 1000 }

/-- Run the refresher over a finite schedule of events. -/
def run (s : RefresherState) (acts : List LoopAction) : RefresherState :=
  acts.foldl step s

/-- startFetchingPlanes: set isFetching and enter the loop at its condition. -/
def startFetchingPlanes (m : MapState) : RefresherState :=
  { isFetching := true, phase := .atCheck, map := m, cycles := 0, delayedMs := 0 }

/-- The three resumptions making up one full loop iteration from the while
condition: issue the fetch, complete it, complete the delay. -/
def cycleActions (r : FetchResult) : List LoopAction :=
  [.advance r, .advance r, .advance r]

/-- n consecutive loop iterations. -/
def manyCycles (r : FetchResult) (n : Nat) : List LoopAction :=
  (List.replicate n (cycleActions r)).flatten

/-- A country record as used by the fill-color setup; only the alpha3 code is
read. -/
structure Country where
  alpha3 : String
  deriving DecidableEq

/-- Modelled from the spec: the bundled list src/app/data/countries imported
by the component is not in the repository. Per the spec it is "a fixed list of
country identifiers (ISO alpha-3 codes)"; a representative slice containing
the four highlighted codes among others. -/
def countries : List Country :=
  [⟨"TUR"⟩, ⟨"TKM"⟩, ⟨"RUS"⟩, ⟨"POL"⟩, ⟨"DEU"⟩, ⟨"FRA"⟩, ⟨"USA"⟩, ⟨"GBR"⟩, ⟨"UKR"⟩]

/-- The constant highlight color pushed for each selected country. -/
def highlightColor : String := "rgba(254,197,11,0.8)"

/-- The fallback color pushed at the end of the match expression. -/
def transparentColor : String := "rgba(0, 0, 0, 0)"

/-- The filter selecting which countries get a match branch:
alpha3 === TUR or TKM or RUS or POL. -/
def highlightPick (c : Country) : Bool :=
  c.alpha3 == "TUR" || c.alpha3 == "TKM" || c.alpha3 == "RUS" || c.alpha3 == "POL"

/-- The label/output pairs pushed onto the match expression by the for loop:
one branch per filtered country, each with the constant highlight color. -/
def matchBranches : List (String × String) :=
  (countries.filter highlightPick).map (fun c => (c.alpha3, highlightColor))

/-- Evaluation of the fill-color match expression on the iso_3166_1_alpha_3
code of a feature: the output of the first branch whose label equals
the code, else the fallback. -/
def evalFillColor (code : String) : String :=
  match matchBranches.find? (fun b => b.1 == code) with
  | some b => b.2
  | none => transparentColor

/-- turf.point([30.8005, 36.9038]): the Antalya endpoint coordinates. -/
def antalya : List Rat := [30.8005, 36.9038]

/-- turf.point([6.7668, 51.2895]): the Duesseldorf endpoint coordinates. -/
def dusseldorf : List Rat := [6.7668, 51.2895]

/-- turf.lineString of the two endpoints: the coordinates of the route
geometry handed to the route source at setup, a constant never recomputed. -/
def route : List (List Rat) := [antalya, dusseldorf]

/-- The loadImage callback used for both the airport and the plane icon:
if (error) throw error, modelled as an Except error; otherwise report whether
addImage ran (map and image both present). No handler catches the throw. -/
def iconLoadCallback (err : Option String) (mapPresent imagePresent : Bool) :
    Except String Bool :=
  match err with
  | some e => Except.error e
  | none => Except.ok (mapPresent && imagePresent)

/-- The icon-loading part of map setup: the airport icon load and then the
plane icon load, neither wrapped in any error handler, so the first callback
throw propagates and aborts setup. -/
def setupIcons (airportErr planeErr : Option String)
    (mapPresent airportImg planeImg : Bool) : Except String (Bool × Bool) :=
  match iconLoadCallback airportErr mapPresent airportImg with
  | .error e => .error e
  | .ok addedA =>
    match iconLoadCallback planeErr mapPresent planeImg with
    | .error e => .error e
    | .ok addedP => .ok (addedA, addedP)

/-! ## Helper lemmas -/

/-- The filter predicate holds exactly when latitude and longitude are
non-zero and the flight identifier is defined. -/
lemma passesFilter_iff (p : Plane) :
    passesFilter p = true ↔ (p.lat ≠ 0 ∧ p.lon ≠ 0 ∧ p.flight ≠ none) := by
  simp [passesFilter, Option.isSome_iff_ne_none, bne_iff_ne, and_assoc]

/-- Running a concatenated schedule runs the pieces in order. -/
lemma run_append (s : RefresherState) (as bs : List LoopAction) :
    run s (as ++ bs) = run (run s as) bs := by
  simp [run, List.foldl_append]

/-- One full loop iteration from the while condition with the flag set:
fetch, publish, delay exactly 1000 ms, and return to the condition. -/
lemma run_cycle (s : RefresherState) (r : FetchResult)
    (hph : s.phase = Phase.atCheck) (hf : s.isFetching = true) :
    run s (cycleActions r) =
      { s with map := fetchPlanes r s.map, cycles := s.cycles + 1,
               delayedMs := s.delayedMs + 1000 } := by
  obtain ⟨f, ph, m, c, d⟩ := s
  cases hph
  cases hf
  rfl

/-- Any number of consecutive loop iterations runs to completion: the loop
returns to its condition with the flag still set and the cycle count grown
by exactly that number. -/
lemma run_manyCycles (n : Nat) (s : RefresherState) (r : FetchResult)
    (hph : s.phase = Phase.atCheck) (hf : s.isFetching = true) :
    (run s (manyCycles r n)).cycles = s.cycles + n ∧
    (run s (manyCycles r n)).phase = Phase.atCheck ∧
    (run s (manyCycles r n)).isFetching = true := by
  induction n generalizing s with
  | zero =>
    simp [manyCycles, run]
    exact ⟨hph, hf⟩
  | succ k ih =>
    have hsplit : manyCycles r (k + 1) = cycleActions r ++ manyCycles r k := by
      simp [manyCycles, List.replicate_succ]
    have hcy := run_cycle s r hph hf
    have hph2 : (run s (cycleActions r)).phase = Phase.atCheck := by
      rw [hcy]; exact hph
    have hf2 : (run s (cycleActions r)).isFetching = true := by
      rw [hcy]; exact hf
    have hcyc : (run s (cycleActions r)).cycles = s.cycles + 1 := by
      rw [hcy]
    obtain ⟨h1, h2, h3⟩ := ih (run s (cycleActions r)) hph2 hf2
    rw [hsplit, run_append]
    exact ⟨by rw [h1, hcyc]; omega, h2, h3⟩

/-- C1: a failing cycle (network error or malformed response) leaves the
published planes collection unchanged, appends one entry to the error log
without throwing past the cycle boundary, and the loop proceeds through the
delay back to its condition with the flag still set, so subsequent cycles
still run. -/
theorem spec_C1 (r : FetchResult) (st : MapState) (hfail : failedCycle r = true) :
    (fetchPlanes r st).planesSource = st.planesSource ∧
    (∃ e : JsError, (fetchPlanes r st).errorLog = st.errorLog ++ [e]) ∧
    (∀ s : RefresherState, s.phase = Phase.inFlight r → s.isFetching = true →
      (run s [LoopAction.advance r, LoopAction.advance r]).phase = Phase.atCheck ∧
      (run s [LoopAction.advance r, LoopAction.advance r]).isFetching = true) := by
  have hrun : ∀ s : RefresherState, s.phase = Phase.inFlight r → s.isFetching = true →
      (run s [LoopAction.advance r, LoopAction.advance r]).phase = Phase.atCheck ∧
      (run s [LoopAction.advance r, LoopAction.advance r]).isFetching = true := by
    intro s hph hf
    obtain ⟨f, ph, m, c, d⟩ := s
    cases hph
    cases hf
    exact ⟨rfl, rfl⟩
  cases r with
  | networkError =>
    exact ⟨rfl, ⟨JsError.networkError, rfl⟩, hrun⟩
  | success resp =>
    cases hac : resp.ac with
    | some ac => simp [failedCycle, hac] at hfail
    | none =>
      refine ⟨?_, ⟨JsError.acUndefined, ?_⟩, hrun⟩ <;>
        simp [fetchPlanes, fetchPlanesBody, hac]

theorem spec_C1_witness :
    (fetchPlanes FetchResult.networkError (MapState.mk (some []) [])).planesSource
      = some [] :=
  (spec_C1 FetchResult.networkError (MapState.mk (some []) []) rfl).1

/-- C2: a record with zero latitude, zero longitude, or an undefined flight
identifier is excluded by the filter fetchPlanes applies before publishing;
a record with non-zero coordinates and a defined flight identifier is kept;
the published features are exactly the features of the kept records. -/
theorem spec_C2 (ac : List Plane) (p : Plane) (hp : p ∈ ac) :
    ((p.lat = 0 ∨ p.lon = 0 ∨ p.flight = none) → p ∉ ac.filter passesFilter) ∧
    ((p.lat ≠ 0 ∧ p.lon ≠ 0 ∧ p.flight ≠ none) → p ∈ ac.filter passesFilter) ∧
    buildFeatures ac = (ac.filter passesFilter).map toFeature := by
  refine ⟨?_, ?_, rfl⟩
  · intro hbad hmem
    rw [List.mem_filter] at hmem
    have hok := (passesFilter_iff p).mp hmem.2
    rcases hbad with h | h | h
    · exact hok.1 h
    · exact hok.2.1 h
    · exact hok.2.2 h
  · intro hgood
    exact List.mem_filter.mpr ⟨hp, (passesFilter_iff p).mpr hgood⟩

theorem spec_C2_witness :
    (Plane.mk 0 2 none (some ("TK1")) ∉
      List.filter passesFilter [Plane.mk 0 2 none (some ("TK1"))]) ∧
    (Plane.mk 1 2 none (some ("TK1")) ∈
      List.filter passesFilter [Plane.mk 1 2 none (some ("TK1"))]) := by
  constructor
  · exact (spec_C2 [Plane.mk 0 2 none (some ("TK1"))]
      (Plane.mk 0 2 none (some ("TK1"))) (by simp)).1 (Or.inl rfl)
  · exact (spec_C2 [Plane.mk 1 2 none (some ("TK1"))]
      (Plane.mk 1 2 none (some ("TK1"))) (by simp)).2.1 (by decide)

/-- C3: for a record passing the filter, the published heading is the source
track value, or 0 when the track is absent or falsy (the number 0). -/
theorem spec_C3 (p : Plane) (hp : passesFilter p = true) :
    ((p.track = none ∨ p.track = some 0) → (toFeature p).properties.heading = 0) ∧
    (∀ t : Rat, p.track = some t → t ≠ 0 → (toFeature p).properties.heading = t) := by
  constructor
  · rintro (h | h) <;> simp [toFeature, jsOrZero, h]
  · intro t ht hne
    simp [toFeature, jsOrZero, ht, hne]

theorem spec_C3_witness :
    (toFeature (Plane.mk 1 2 (some 90) (some ("TK1")))).properties.heading = 90 :=
  (spec_C3 (Plane.mk 1 2 (some 90) (some ("TK1"))) (by decide)).2 90 rfl (by norm_num)

/-- C4: a successful cycle with the planes source available replaces its
entire contents with the collection computed from this response alone,
whatever was published before; when no record passes the filter the published
collection is empty. -/
theorem spec_C4 (resp : Response) (ac : List Plane) (st : MapState)
    (prev : List Feature) (hac : resp.ac = some ac)
    (hsrc : st.planesSource = some prev) :
    (fetchPlanes (FetchResult.success resp) st).planesSource
      = some (buildFeatures ac) ∧
    (ac.filter passesFilter = [] →
      (fetchPlanes (FetchResult.success resp) st).planesSource = some []) := by
  constructor
  · simp [fetchPlanes, fetchPlanesBody, hac, hsrc]
  · intro hempty
    simp [fetchPlanes, fetchPlanesBody, hac, hsrc, buildFeatures, hempty]

theorem spec_C4_witness :
    (fetchPlanes (FetchResult.success (Response.mk (some [])))
        (MapState.mk (some [toFeature (Plane.mk 1 2 none (some ("TK1")))]) [])).planesSource
      = some [] :=
  (spec_C4 (Response.mk (some [])) []
    (MapState.mk (some [toFeature (Plane.mk 1 2 none (some ("TK1")))]) [])
    [toFeature (Plane.mk 1 2 none (some ("TK1")))] rfl rfl).2 rfl

/-- C5: while the flag is set the loop at its condition starts a fetch; a
completing fetch publishes and moves to the delay regardless of the flag (an
in-flight cycle is never aborted); the delay adds exactly 1000 ms and returns
to the condition; with the flag cleared the loop stops at its condition and
no further cycle starts; only teardown (destroy) clears the flag, and it
leaves the control point untouched; and from the condition with the flag set
any number of consecutive cycles runs, so there is no maximum iteration
count. -/
theorem spec_C5 :
    (∀ (s : RefresherState) (r : FetchResult),
        s.phase = Phase.atCheck → s.isFetching = true →
        step s (LoopAction.advance r) = { s with phase := Phase.inFlight r }) ∧
    (∀ (s : RefresherState) (r r0 : FetchResult), s.phase = Phase.inFlight r0 →
        step s (LoopAction.advance r) =
          { s with phase := Phase.inDelay, map := fetchPlanes r0 s.map,
                   cycles := s.cycles + 1 }) ∧
    (∀ (s : RefresherState) (r : FetchResult), s.phase = Phase.inDelay →
        step s (LoopAction.advance r) =
          { s with phase := Phase.atCheck, delayedMs := s.delayedMs + 1000 }) ∧
    (∀ (s : RefresherState) (r : FetchResult),
        s.phase = Phase.atCheck → s.isFetching = false →
        step s (LoopAction.advance r) = s) ∧
    (∀ (s : RefresherState) (r : FetchResult),
        (step s (LoopAction.advance r)).isFetching = s.isFetching) ∧
    (∀ s : RefresherState, (step s LoopAction.destroy).isFetching = false ∧
        (step s LoopAction.destroy).phase = s.phase) ∧
    (∀ (n : Nat) (s : RefresherState) (r : FetchResult),
        s.phase = Phase.atCheck → s.isFetching = true →
        (run s (manyCycles r n)).cycles = s.cycles + n ∧
        (run s (manyCycles r n)).phase = Phase.atCheck ∧
        (run s (manyCycles r n)).isFetching = true) := by
  refine ⟨?_, ?_, ?_, ?_, ?_, ?_, run_manyCycles⟩
  · intro s r hph hf
    obtain ⟨f, ph, m, c, d⟩ := s
    cases hph; cases hf; rfl
  · intro s r r0 hph
    obtain ⟨f, ph, m, c, d⟩ := s
    cases hph; rfl
  · intro s r hph
    obtain ⟨f, ph, m, c, d⟩ := s
    cases hph; rfl
  · intro s r hph hf
    obtain ⟨f, ph, m, c, d⟩ := s
    cases hph; cases hf; rfl
  · intro s r
    obtain ⟨f, ph, m, c, d⟩ := s
    cases ph
    · by_cases hf : f <;> simp [step, hf]
    · rfl
    · rfl
  · intro s
    exact ⟨rfl, rfl⟩

theorem spec_C5_witness :
    step (startFetchingPlanes (MapState.mk (some []) []))
        (LoopAction.advance FetchResult.networkError) =
      { startFetchingPlanes (MapState.mk (some []) []) with
          phase := Phase.inFlight FetchResult.networkError } ∧
    (run (startFetchingPlanes (MapState.mk (some []) []))
        (manyCycles FetchResult.networkError 3)).cycles = 3 := by
  constructor
  · exact spec_C5.1 (startFetchingPlanes (MapState.mk (some []) []))
      FetchResult.networkError rfl rfl
  · exact (spec_C5.2.2.2.2.2.2 3 (startFetchingPlanes (MapState.mk (some []) []))
      FetchResult.networkError rfl rfl).1

/-- C6: the fill-color match expression resolves every code of the highlight
set to the constant highlight color and any other code to the transparent
fallback. -/
theorem spec_C6 (code : String) :
    ((code = "TUR" ∨ code = "TKM" ∨ code = "RUS" ∨ code = "POL") →
        evalFillColor code = highlightColor) ∧
    (code ≠ "TUR" → code ≠ "TKM" → code ≠ "RUS" → code ≠ "POL" →
        evalFillColor code = transparentColor) := by
  have hbr : matchBranches = [("TUR", highlightColor), ("TKM", highlightColor),
      ("RUS", highlightColor), ("POL", highlightColor)] := rfl
  constructor
  · rintro (h | h | h | h) <;> subst h <;> rfl
  · intro h1 h2 h3 h4
    have e1 : ("TUR" == code) = false := beq_eq_false_iff_ne.mpr (Ne.symm h1)
    have e2 : ("TKM" == code) = false := beq_eq_false_iff_ne.mpr (Ne.symm h2)
    have e3 : ("RUS" == code) = false := beq_eq_false_iff_ne.mpr (Ne.symm h3)
    have e4 : ("POL" == code) = false := beq_eq_false_iff_ne.mpr (Ne.symm h4)
    simp [evalFillColor, hbr, List.find?, e1, e2, e3, e4]

theorem spec_C6_witness :
    evalFillColor ("TUR") = highlightColor ∧
    evalFillColor ("TKM") = highlightColor ∧
    evalFillColor ("RUS") = highlightColor ∧
    evalFillColor ("POL") = highlightColor ∧
    evalFillColor ("DEU") = transparentColor := by
  refine ⟨(spec_C6 ("TUR")).1 (Or.inl rfl),
    (spec_C6 ("TKM")).1 (Or.inr (Or.inl rfl)),
    (spec_C6 ("RUS")).1 (Or.inr (Or.inr (Or.inl rfl))),
    (spec_C6 ("POL")).1 (Or.inr (Or.inr (Or.inr rfl))),
    (spec_C6 ("DEU")).2 ?_ ?_ ?_ ?_⟩ <;> decide

/-- C7: the route geometry is exactly the two endpoint coordinate pairs, the
Antalya pair then the Duesseldorf pair; it is a constant of setup, never
recomputed. -/
theorem spec_C7 :
    route = [[(30.8005 : Rat), 36.9038], [(6.7668 : Rat), 51.2895]] ∧
    route.length = 2 :=
  ⟨rfl, rfl⟩

/-- C8: an icon load callback invoked with an error throws it (the Except
error), and the error propagates out of the icon-loading part of setup
uncaught, whether the airport or the plane load fails; nothing recovers or
logs it. -/
theorem spec_C8 (e : String) (planeErr : Option String) (mp i1 i2 : Bool) :
    iconLoadCallback (some e) mp i1 = Except.error e ∧
    setupIcons (some e) planeErr mp i1 i2 = Except.error e ∧
    setupIcons none (some e) mp i1 i2 = Except.error e :=
  ⟨rfl, rfl, rfl⟩

/-- C9: a cycle whose response is well-formed but whose planes source is
unavailable takes no error path and leaves the state untouched: the guarded
publication publishes nothing. -/
theorem spec_C9 (resp : Response) (ac : List Plane) (st : MapState)
    (hac : resp.ac = some ac) (hsrc : st.planesSource = none) :
    fetchPlanesBody (FetchResult.success resp) st = Except.ok st ∧
    fetchPlanes (FetchResult.success resp) st = st := by
  constructor <;> simp [fetchPlanes, fetchPlanesBody, hac, hsrc]

theorem spec_C9_witness :
    fetchPlanes (FetchResult.success (Response.mk (some [Plane.mk 1 2 none (some ("TK1"))])))
        (MapState.mk none [])
      = MapState.mk none [] :=
  (spec_C9 (Response.mk (some [Plane.mk 1 2 none (some ("TK1"))]))
    [Plane.mk 1 2 none (some ("TK1"))] (MapState.mk none []) rfl rfl).2

/-- C10: every published feature is a GeoJSON Point with coordinates
[longitude, latitude] in that order and properties exactly heading and
flight, and the published list is the filtered record list mapped in order
(the filtered list being a sublist of the fetched collection, relative order
is preserved). -/
theorem spec_C10 (ac : List Plane) (p : Plane) :
    buildFeatures ac = (ac.filter passesFilter).map toFeature ∧
    List.Sublist (ac.filter passesFilter) ac ∧
    (toFeature p).type = "Feature" ∧
    (toFeature p).geometry.type = "Point" ∧
    (toFeature p).geometry.coordinates = [p.lon, p.lat] ∧
    (toFeature p).properties.heading = jsOrZero p.track ∧
    (toFeature p).properties.flight = p.flight :=
  ⟨rfl, List.filter_sublist ac, rfl, rfl, rfl, rfl, rfl⟩
